import Mathlib

/-!
# Verification of the lastimportlastplayed beets plugin

A shallow embedding of `beetsplug/lastimportlastplayed.py`, the plugin that
imports "last played" timestamps from the last.fm scrobble history into a
local beets library, together with theorems settling the specification
claims about it.

Modelling conventions:

* The beets library (`lib`) is a `List CatalogEntry`; `lib.items(query)` is
  a filter over it, and `Item.store()` rewrites the entry with the same id.
* Interactive `input()` is an explicit stream `List String`; running out of
  stream is the model artifact `PyError.inputExhausted` (standing for the
  `EOFError` a real terminal would raise).
* Reading the Python local variable `skip` before its first assignment is
  `PyError.unboundLocal` (Python's `UnboundLocalError`); the variable is
  function-scoped in `process_tracks`, which the embedding mirrors by
  threading an `Option Bool` through the whole page.
* The external query predicates (beets `SubstringQuery`, the optional
  `FuzzyQuery` plugin, and `parse_query_string` for manual queries) are
  parameters of the embedding (`Ctx`), since they live outside this
  repository.
* `sqlite3.OperationalError` ("database is locked") on `store()` is driven
  by an explicit schedule: a `List Nat` of per-store busy counts.
-/

namespace LastImport

/-- Exceptions that can escape the reconciliation code in the embedding. -/
inductive PyError where
  | unboundLocal
  | inputExhausted
deriving Repr, DecidableEq

/-- A row of the beets library relevant to this plugin: the fields queried by
the matching cascade plus the flexible attribute `last_played`
(`none` when the attribute is unset; `song.get('last_played', 0)` then
yields 0). `id` is the database identity used by `store()`. -/
structure CatalogEntry where
  id : Nat
  mb_trackid : String
  artist : String
  album : String
  title : String
  last_played : Option Nat
deriving Repr, DecidableEq

/-- One scrobble as produced by `get_recent_tracks_by_page`:
`t.track.mbid`, `t.track.artist.name`, `t.track.title`, `t.album`,
`t.timestamp`.  String fields are `Option`s because pylast yields `None`
for missing tags; the timestamp is 0 when falsy (`if not t.timestamp`). -/
structure PlayEvent where
  trackid : Option String
  artist : Option String
  title : Option String
  album : Option String
  timestamp : Nat
deriving Repr, DecidableEq

/-- Python `str.strip()` (ASCII whitespace only in this model). -/
def pyStrip (s : String) : String :=
  ⟨((s.data.dropWhile Char.isWhitespace).reverse.dropWhile Char.isWhitespace).reverse⟩

/-- `x.strip() if x else ''` — the pattern used for trackid/artist/title in
`process_tracks`. -/
def pyStr (s : Option String) : String :=
  match s with
  | none => ""
  | some v => if v = "" then "" else pyStrip v

/-- `t.album.strip() if t.album else None`. -/
def pyAlbum (s : Option String) : Option String :=
  match s with
  | none => none
  | some v => if v = "" then none else some (pyStrip v)

/-- Decimal digit value of a character, if any. -/
def digitVal (c : Char) : Option Nat :=
  if 48 ≤ c.toNat ∧ c.toNat ≤ 57 then some (c.toNat - 48) else none

/-- Read a non-empty all-digit character list as a natural number. -/
def readDigits : List Char → Nat → Option Nat
  | [], acc => some acc
  | c :: rest, acc =>
    match digitVal c with
    | some d => readDigits rest (acc * 10 + d)
    | none => none

/-- Parse a non-empty digit string. -/
def parseNatL (l : List Char) : Option Nat :=
  match l with
  | [] => none
  | _ => readDigits l 0

/-- Model of Python `int(s)` on user input: optional surrounding whitespace,
an optional sign, then decimal digits.  (Digit-group underscores and
non-ASCII digits accepted by CPython are not modelled; no claim depends on
them.) -/
def pyInt (s : String) : Option Int :=
  let t := ((s.data.dropWhile Char.isWhitespace).reverse.dropWhile Char.isWhitespace).reverse
  match t with
  | [] => none
  | c :: rest =>
    if c = '-' then (parseNatL rest).map (fun n => -(n : Int))
    else if c = '+' then (parseNatL rest).map (fun n => (n : Int))
    else (parseNatL t).map (fun n => (n : Int))

/-- Python `str.lower()` (ASCII). -/
def pyLower (s : String) : String := ⟨s.data.map Char.toLower⟩

/-- `title.replace("'", u'’')`: every ASCII apostrophe (code point 39)
replaced by the typographic right single quote (code point 8217). -/
def normTitle (s : String) : String :=
  ⟨s.data.map (fun c => if c = Char.ofNat 39 then Char.ofNat 8217 else c)⟩

/-- The outcome of `select_result` / `user_query`: the pair
`(song, skip)` returned by the Python functions, together with the not yet
consumed interactive input. -/
abbrev SRout := Option CatalogEntry × Bool × List String

/-- `select_result(results, lib, ask_query)` from the source.

* no candidate: `(None, False)`, unless `ask_query` is set, in which case
  `user_query(lib, True)` runs (that call is inlined here so that the
  recursion is structural on the input stream; `user_query` below is
  definitionally the same code);
* exactly one candidate: that candidate, no prompt;
* otherwise a prompt loop: `"s"` skips, `"e"` runs `user_query(lib, False)`,
  an integer in `[0, len(results))` picks a candidate, and anything else
  re-prompts.

`cq` stands for `parse_query_string` composed with `lib.items`: it is the
predicate that a manual query string imposes on catalog entries. -/
def select_result (lib : List CatalogEntry) (cq : String → CatalogEntry → Bool) :
    List CatalogEntry → Bool → List String → Except PyError SRout
  | [], ask_query, inputs =>
    if ask_query then
      -- inlined user_query lib cq true inputs
      match inputs with
      | [] => .error .inputExhausted
      | ans :: rest =>
        if pyLower ans = "y" then
          match rest with
          | [] => .error .inputExhausted
          | qs :: rest2 => select_result lib cq (lib.filter (cq qs)) true rest2
        else .ok (none, false, rest)
    else .ok (none, false, inputs)
  | [r], _, inputs => .ok (some r, false, inputs)
  | results, ask_query, inputs =>
    match inputs with
    | [] => .error .inputExhausted
    | c :: rest =>
      if c = "s" then .ok (none, true, rest)
      else if c = "e" then
        -- inlined user_query lib cq false rest
        match rest with
        | [] => .error .inputExhausted
        | qs :: rest2 => select_result lib cq (lib.filter (cq qs)) true rest2
      else
        match pyInt c with
        | none => select_result lib cq results ask_query rest
        | some n =>
          if h : n < 0 ∨ (results.length : Int) ≤ n then
            select_result lib cq results ask_query rest
          else .ok (some (results.get ⟨n.toNat, by omega⟩), false, rest)

/-- `user_query(lib, ask_query)` from the source: optionally confirm, read a
free-form query string, and resolve its results with
`select_result(..., ask_query=True)`. -/
def user_query (lib : List CatalogEntry) (cq : String → CatalogEntry → Bool)
    (ask_query : Bool) (inputs : List String) : Except PyError SRout :=
  if ask_query then
    match inputs with
    | [] => .error .inputExhausted
    | ans :: rest =>
      if pyLower ans = "y" then
        match rest with
        | [] => .error .inputExhausted
        | qs :: rest2 => select_result lib cq (lib.filter (cq qs)) true rest2
      else .ok (none, false, rest)
  else
    match inputs with
    | [] => .error .inputExhausted
    | qs :: rest => select_result lib cq (lib.filter (cq qs)) true rest

/-- Boolean list prefix test (over characters). -/
def prefixOfL : List Char → List Char → Bool
  | [], _ => true
  | _ :: _, [] => false
  | a :: as, b :: bs => a = b && prefixOfL as bs

/-- Boolean contiguous-sublist test: does `pat` occur inside the second
list? -/
def infixOfL (pat : List Char) : List Char → Bool
  | [] => pat.isEmpty
  | b :: bs => prefixOfL pat (b :: bs) || infixOfL pat bs

/-- A concrete instance of the external substring predicate, used in
concrete runs: plain case-sensitive containment. -/
def substrModel (pat s : String) : Bool := infixOfL pat.data s.data

/-- The external collaborators of the reconciler, fixed for a run:

* `substr pat field` — beets `SubstringQuery(field, pat)` semantics;
* `fuzzy pat field` — the optional `FuzzyQuery` of the fuzzy plugin;
* `fuzzyAvail` — whether `from beetsplug.fuzzy import FuzzyQuery` succeeded
  (`FUZZY_AVAIL` in the source);
* `askUser` — the `ask_user_query` configuration flag;
* `cq qs entry` — whether `entry` satisfies the manual query string `qs`
  (`parse_query_string` + `lib.items`). -/
structure Ctx where
  substr : String → String → Bool
  fuzzy : String → String → Bool
  fuzzyAvail : Bool
  askUser : Bool
  cq : String → CatalogEntry → Bool

/-- The per-event mutable locals of the matching part of `process_tracks`:
`song`, the function-scoped `skip` flag (`none` = never assigned),
`title` (mutated by the apostrophe-normalisation strategy), and the
remaining interactive input. -/
structure MState where
  song : Option CatalogEntry
  skip : Option Bool
  title : String
  inputs : List String
deriving Repr, DecidableEq

/-- Strategy 2: `if song is None and album:` — conjunctive substring query on
artist, album and title, resolved by `select_result`.  (The guard does not
read `skip`.) -/
def step2 (ctx : Ctx) (lib : List CatalogEntry) (artist : String) (album : Option String)
    (st : MState) : Except PyError MState :=
  match st.song, album with
  | none, some al =>
    match select_result lib ctx.cq
        (lib.filter (fun e => ctx.substr artist e.artist && ctx.substr al e.album &&
                              ctx.substr st.title e.title)) false st.inputs with
    | .error e => .error e
    | .ok (s, k, ins) => .ok ⟨s, some k, st.title, ins⟩
  | _, _ => .ok st

/-- Strategy 3: `if song is None and not skip:` — artist/title substring
query.  Evaluating the guard reads `skip`, which errors when the variable
was never assigned. -/
def step3 (ctx : Ctx) (lib : List CatalogEntry) (artist : String)
    (st : MState) : Except PyError MState :=
  match st.song with
  | some _ => .ok st
  | none =>
    match st.skip with
    | none => .error .unboundLocal
    | some true => .ok st
    | some false =>
      match select_result lib ctx.cq
          (lib.filter (fun e => ctx.substr artist e.artist && ctx.substr st.title e.title))
          false st.inputs with
      | .error e => .error e
      | .ok (s, k, ins) => .ok ⟨s, some k, st.title, ins⟩

/-- Strategy 4: same guard as strategy 3, but first
`title = title.replace("'", u'’')`, so this and all later strategies see
the normalised title. -/
def step4 (ctx : Ctx) (lib : List CatalogEntry) (artist : String)
    (st : MState) : Except PyError MState :=
  match st.song with
  | some _ => .ok st
  | none =>
    match st.skip with
    | none => .error .unboundLocal
    | some true => .ok st
    | some false =>
      let t2 := normTitle st.title
      match select_result lib ctx.cq
          (lib.filter (fun e => ctx.substr artist e.artist && ctx.substr t2 e.title))
          false st.inputs with
      | .error e => .error e
      | .ok (s, k, ins) => .ok ⟨s, some k, t2, ins⟩

/-- Strategy 5a: `if song is None and FUZZY_AVAIL and not skip:` — substring
artist, fuzzy title.  `FUZZY_AVAIL` is evaluated before `skip`. -/
def step5a (ctx : Ctx) (lib : List CatalogEntry) (artist : String)
    (st : MState) : Except PyError MState :=
  match st.song with
  | some _ => .ok st
  | none =>
    if ctx.fuzzyAvail then
      match st.skip with
      | none => .error .unboundLocal
      | some true => .ok st
      | some false =>
        match select_result lib ctx.cq
            (lib.filter (fun e => ctx.substr artist e.artist && ctx.fuzzy st.title e.title))
            false st.inputs with
        | .error e => .error e
        | .ok (s, k, ins) => .ok ⟨s, some k, st.title, ins⟩
    else .ok st

/-- Strategy 5b: fuzzy artist, substring title. -/
def step5b (ctx : Ctx) (lib : List CatalogEntry) (artist : String)
    (st : MState) : Except PyError MState :=
  match st.song with
  | some _ => .ok st
  | none =>
    if ctx.fuzzyAvail then
      match st.skip with
      | none => .error .unboundLocal
      | some true => .ok st
      | some false =>
        match select_result lib ctx.cq
            (lib.filter (fun e => ctx.fuzzy artist e.artist && ctx.substr st.title e.title))
            false st.inputs with
        | .error e => .error e
        | .ok (s, k, ins) => .ok ⟨s, some k, st.title, ins⟩
    else .ok st

/-- Strategy 5c: fuzzy artist and fuzzy title. -/
def step5c (ctx : Ctx) (lib : List CatalogEntry) (artist : String)
    (st : MState) : Except PyError MState :=
  match st.song with
  | some _ => .ok st
  | none =>
    if ctx.fuzzyAvail then
      match st.skip with
      | none => .error .unboundLocal
      | some true => .ok st
      | some false =>
        match select_result lib ctx.cq
            (lib.filter (fun e => ctx.fuzzy artist e.artist && ctx.fuzzy st.title e.title))
            false st.inputs with
        | .error e => .error e
        | .ok (s, k, ins) => .ok ⟨s, some k, st.title, ins⟩
    else .ok st

/-- Strategy 6: `if song is None and ask_user_query and not skip:` — manual
query via `user_query(lib, True)`.  `ask_user_query` is evaluated before
`skip`. -/
def step6 (ctx : Ctx) (lib : List CatalogEntry) (st : MState) : Except PyError MState :=
  match st.song with
  | some _ => .ok st
  | none =>
    if ctx.askUser then
      match st.skip with
      | none => .error .unboundLocal
      | some true => .ok st
      | some false =>
        match user_query lib ctx.cq true st.inputs with
        | .error e => .error e
        | .ok (s, k, ins) => .ok ⟨s, some k, st.title, ins⟩
    else .ok st

/-- Strategies 6 and nothing after: the tail of the cascade. -/
def tailC6 (ctx : Ctx) (lib : List CatalogEntry) (st : MState) : Except PyError MState :=
  step6 ctx lib st

/-- Strategies 5c–6. -/
def tailC5c (ctx : Ctx) (lib : List CatalogEntry) (artist : String)
    (st : MState) : Except PyError MState :=
  (step5c ctx lib artist st).bind (tailC6 ctx lib)

/-- Strategies 5b–6. -/
def tailC5b (ctx : Ctx) (lib : List CatalogEntry) (artist : String)
    (st : MState) : Except PyError MState :=
  (step5b ctx lib artist st).bind (tailC5c ctx lib artist)

/-- Strategies 5a–6. -/
def tailC5a (ctx : Ctx) (lib : List CatalogEntry) (artist : String)
    (st : MState) : Except PyError MState :=
  (step5a ctx lib artist st).bind (tailC5b ctx lib artist)

/-- Strategies 4–6. -/
def tailC4 (ctx : Ctx) (lib : List CatalogEntry) (artist : String)
    (st : MState) : Except PyError MState :=
  (step4 ctx lib artist st).bind (tailC5a ctx lib artist)

/-- Strategies 3–6. -/
def tailC3 (ctx : Ctx) (lib : List CatalogEntry) (artist : String)
    (st : MState) : Except PyError MState :=
  (step3 ctx lib artist st).bind (tailC4 ctx lib artist)

/-- The whole matching part of one `process_tracks` iteration: the
musicbrainz id lookup (`lib.items(MatchQuery('mb_trackid', ...)).get()`)
followed by strategies 2–6.  `skip0` is the value the function-scoped
`skip` variable holds when the iteration starts (`none` = not yet
assigned). -/
def matchPhase (ctx : Ctx) (lib : List CatalogEntry) (skip0 : Option Bool)
    (inputs0 : List String) (trackid artist title0 : String) (album : Option String) :
    Except PyError MState :=
  (step2 ctx lib artist album
    ⟨(if trackid = "" then none
      else (lib.filter (fun e => e.mb_trackid == trackid)).head?), skip0, title0, inputs0⟩).bind
    (tailC3 ctx lib artist)

/-- `song.store()`: persist `last_played = ts` on the entry with the song's
database id. -/
def storeEntry (lib : List CatalogEntry) (sid ts : Nat) : List CatalogEntry :=
  lib.map (fun e => if e.id = sid then { e with last_played := some ts } else e)

/-- The `while True: try ... except OperationalError: time.sleep(3)` loop
around the store.  The argument is the number of times the persistence
layer reports "database is locked" before the store succeeds; each failure
just sleeps and retries. -/
def storeLoop (lib : List CatalogEntry) (sid ts found : Nat) :
    Nat → List CatalogEntry × Nat
  | 0 => (storeEntry lib sid ts, found + 1)
  | b + 1 => storeLoop lib sid ts found b

/-- The world state threaded through a run: the persistent library, the
interactive input stream, and the schedule of busy counts for the
successive `store()` calls. -/
structure World where
  lib : List CatalogEntry
  inputs : List String
  busy : List Nat
deriving Repr, DecidableEq

/-- Lines 308–326 of the source: on a resolved match compare the event
timestamp with `int(song.get('last_played', 0))`; strictly newer ⇒ store
(retrying while the database is locked) and count `total_found`; otherwise
count `not_updated`.  Returns the world plus the updated
`(total_found, not_updated)` counters. -/
def updatePhase (w : World) (song : CatalogEntry) (ts : Nat) (found notUpd : Nat) :
    World × Nat × Nat :=
  let lastPlayed := song.last_played.getD 0
  if lastPlayed < ts then
    let p := storeLoop w.lib song.id ts found (w.busy.headD 0)
    (⟨p.1, w.inputs, w.busy.tail⟩, p.2, notUpd)
  else (w, found, notUpd + 1)

/-- Accumulator of `process_tracks`: world, the function-scoped `skip`
variable, and the three counters `total_found`, `not_updated`,
`total_fails`. -/
structure PTState where
  w : World
  skip : Option Bool
  found : Nat
  notUpd : Nat
  fails : Nat
deriving Repr, DecidableEq

/-- One iteration of the `for t in tracks:` loop of `process_tracks`. -/
def processTrack (ctx : Ctx) (st : PTState) (t : PlayEvent) : Except PyError PTState :=
  if t.timestamp = 0 then .ok st
  else
    match matchPhase ctx st.w.lib st.skip st.w.inputs (pyStr t.trackid) (pyStr t.artist)
        (pyStr t.title) (pyAlbum t.album) with
    | .error e => .error e
    | .ok m =>
      match m.song with
      | some song =>
        let r := updatePhase ⟨st.w.lib, m.inputs, st.w.busy⟩ song t.timestamp st.found st.notUpd
        .ok ⟨r.1, m.skip, r.2.1, r.2.2, st.fails⟩
      | none => .ok ⟨⟨st.w.lib, m.inputs, st.w.busy⟩, m.skip, st.found, st.notUpd, st.fails + 1⟩

/-- `process_tracks(lib, tracks, log, ask_user_query)`: fold the per-event
processing over the page, starting with `skip` unassigned, and return
`(total_found, not_updated, total_fails)` together with the final world.
An uncaught exception aborts the whole page (and run). -/
def process_tracks (ctx : Ctx) (w : World) (tracks : List PlayEvent) :
    Except PyError (World × Nat × Nat × Nat) :=
  (tracks.foldlM (processTrack ctx) ⟨w, none, 0, 0, 0⟩).map
    (fun st => (st.w, st.found, st.notUpd, st.fails))

/-- The driver's loop state: world, `page_current`, `page_total`
(initialised to 1 before the first fetch) and the three aggregate
counters. -/
structure DrState where
  w : World
  pageCurrent : Nat
  pageTotal : Nat
  found : Nat
  notUpd : Nat
  unknown : Nat
deriving Repr, DecidableEq

/-- How a run of `import_lastfm_last_played` can end abnormally. `noUser`
and `noData` are the two `ui.UserError`s of the source; `py` is an
uncaught exception from `process_tracks`; `outOfFuel` is the model
artifact for a run longer than the supplied fuel. -/
inductive RunErr where
  | noUser
  | noData
  | py (e : PyError)
  | outOfFuel
deriving Repr, DecidableEq

/-- The remote service: `fetch_tracks(user, page, per_page, from, to)` as a
function of the page number and the retry index of the attempt.
`.error ()` is a `pylast.WSError`; `.ok (tracks, total_pages)` is a
successful response. -/
abbrev Fetch := Nat → Nat → Except Unit (List PlayEvent × Nat)

/-- The `for retry in range(0, retry_limit):` loop of
`import_lastfm_last_played` for one page.  The first argument of the
recursion is the number of attempts left, so the current retry index is
`retryLimit - (attempts left)`.  Mirrored faithfully from the source,
including the `if page_total < 1 and retry == retry_limit:` check (whose
second conjunct can never hold inside the loop) and the rule that a
successful but empty response only updates `page_total` and retries. -/
def attemptLoop (ctx : Ctx) (fetch : Fetch) (retryLimit : Nat) :
    Nat → DrState → Except RunErr DrState
  | 0, st => .ok st
  | k + 1, st =>
    let retry := retryLimit - (k + 1)
    match fetch (st.pageCurrent + 1) retry with
    | .error _ =>
      if st.pageTotal < 1 ∧ retry = retryLimit then .error .noData
      else attemptLoop ctx fetch retryLimit k st
    | .ok (tracks, tot) =>
      -- `tracks, page_total = fetch_tracks(...)`: page_total is `tot` from
      -- here on in this iteration.
      if tot < 1 ∧ retry = retryLimit then .error .noData
      else if tracks.isEmpty then attemptLoop ctx fetch retryLimit k { st with pageTotal := tot }
      else
        match process_tracks ctx st.w tracks with
        | .error e => .error (.py e)
        | .ok (w2, f, nu, unk) =>
          .ok { st with pageTotal := tot, w := w2, found := st.found + f,
                        notUpd := st.notUpd + nu, unknown := st.unknown + unk }

/-- The `while page_current < page_total:` loop: run the retry loop for the
current page (whatever its outcome, `page_current += 1` afterwards).  The
fuel bounds the number of page iterations of the model. -/
def driverLoop (ctx : Ctx) (fetch : Fetch) (retryLimit : Nat) :
    Nat → DrState → Except RunErr DrState
  | 0, st => if st.pageCurrent < st.pageTotal then .error .outOfFuel else .ok st
  | fuel + 1, st =>
    if st.pageCurrent < st.pageTotal then
      match attemptLoop ctx fetch retryLimit retryLimit st with
      | .error e => .error e
      | .ok st2 => driverLoop ctx fetch retryLimit fuel { st2 with pageCurrent := st2.pageCurrent + 1 }
    else .ok st

/-- The options the plugin registers for itself in `__init__` via
`self.config.add`, under its own `lastimportlastplayed` namespace. -/
structure PluginOptions where
  per_page : Nat
  retry_limit : Nat
  ask_user_query : Bool
deriving Repr, DecidableEq

/-- Line 47–53 of the source: `per_page: 50`, `retry_limit: 3`,
`ask_user_query: True` (the two time bounds are strings handled before the
driver and are not part of the reconciliation model). -/
def registeredDefaults : PluginOptions := ⟨50, 3, true⟩

/-- The slice of the global beets configuration the driver reads:
`config['lastfm']['user']`, the plugin's own options, and the foreign
`config['lastimport']['retry_limit']` of the separate lastimport
plugin. -/
structure BeetsConfig where
  lastfm_user : String
  lastimportlastplayed : PluginOptions
  lastimport_retry_limit : Nat
deriving Repr, DecidableEq

/-- Line 156 of the source:
`retry_limit = config['lastimport']['retry_limit'].get(int)` — the value
that actually bounds the per-page fetch retries. -/
def retryLimitUsed (cfg : BeetsConfig) : Nat := cfg.lastimport_retry_limit

/-- Line 141 of the source:
`per_page = config['lastimportlastplayed']['per_page'].get(int)`. -/
def perPageUsed (cfg : BeetsConfig) : Nat := cfg.lastimportlastplayed.per_page

/-- `import_lastfm_last_played(lib, log, time_from, time_to,
ask_user_query)`: refuse a missing user name, then run the page loop
starting from `page_current = 0`, `page_total = 1`, zero counters.
Returns `(found_total, not_updated_total, unknown_total)`. -/
def import_lastfm_last_played (ctx0 : Ctx) (fetch : Fetch) (cfg : BeetsConfig)
    (fuel : Nat) (w : World) : Except RunErr (Nat × Nat × Nat) :=
  if cfg.lastfm_user = "" then .error .noUser
  else
    let ctx := { ctx0 with askUser := cfg.lastimportlastplayed.ask_user_query }
    match driverLoop ctx fetch (retryLimitUsed cfg) fuel ⟨w, 0, 1, 0, 0, 0⟩ with
    | .error e => .error e
    | .ok st => .ok (st.found, st.notUpd, st.unknown)

/-- Cascade state as the specification describes it, per event: a possible
resolved entry, the event's own skip flag (false at the start of every
event), and the remaining interactive input. -/
structure SState where
  song : Option CatalogEntry
  skipFlag : Bool
  inputs : List String
deriving Repr, DecidableEq

/-- Route a strategy's result set through the ambiguity resolver
(spec §4.2/§4.3). -/
def specResolve (lib : List CatalogEntry) (cq : String → CatalogEntry → Bool)
    (results : List CatalogEntry) (st : SState) : Except PyError SState :=
  match select_result lib cq results false st.inputs with
  | .error e => .error e
  | .ok (s, k, ins) => .ok ⟨s, k, ins⟩

/-- Run strategies in order, "stopping at the first that yields a usable
result or an explicit skip" (spec §4.2). -/
def runCascade : List (SState → Except PyError SState) → SState → Except PyError SState
  | [], st => .ok st
  | f :: rest, st =>
    if st.song.isSome ∨ st.skipFlag then .ok st
    else
      match f st with
      | .error e => .error e
      | .ok st2 => runCascade rest st2

/-- Spec strategy 1: exact external-identifier match when the event carries
an identifier; no resolver involved. -/
def specStrat1 (lib : List CatalogEntry) (trackid : String) :
    SState → Except PyError SState :=
  fun st => .ok ⟨(if trackid = "" then none
                  else (lib.filter (fun e => e.mb_trackid == trackid)).head?),
                 st.skipFlag, st.inputs⟩

/-- Spec strategy 2: conjunctive substring match on artist, album and title
(only meaningful when the event has an album). -/
def specStrat2 (ctx : Ctx) (lib : List CatalogEntry) (artist title : String)
    (album : Option String) : SState → Except PyError SState :=
  fun st =>
    match album with
    | some al => specResolve lib ctx.cq
        (lib.filter (fun e => ctx.substr artist e.artist && ctx.substr al e.album &&
                              ctx.substr title e.title)) st
    | none => .ok st

/-- Spec strategy 3: conjunctive substring match on artist and title. -/
def specStrat3 (ctx : Ctx) (lib : List CatalogEntry) (artist title : String) :
    SState → Except PyError SState :=
  fun st => specResolve lib ctx.cq
    (lib.filter (fun e => ctx.substr artist e.artist && ctx.substr title e.title)) st

/-- Spec strategy 4: like 3 with the title's apostrophe normalised. -/
def specStrat4 (ctx : Ctx) (lib : List CatalogEntry) (artist title : String) :
    SState → Except PyError SState :=
  fun st => specResolve lib ctx.cq
    (lib.filter (fun e => ctx.substr artist e.artist &&
                          ctx.substr (normTitle title) e.title)) st

/-- Spec strategy 5a: fuzzy title (on the normalised title), when fuzzy
matching is available. -/
def specStrat5a (ctx : Ctx) (lib : List CatalogEntry) (artist title : String) :
    SState → Except PyError SState :=
  fun st =>
    if ctx.fuzzyAvail then
      specResolve lib ctx.cq
        (lib.filter (fun e => ctx.substr artist e.artist &&
                              ctx.fuzzy (normTitle title) e.title)) st
    else .ok st

/-- Spec strategy 5b: fuzzy artist. -/
def specStrat5b (ctx : Ctx) (lib : List CatalogEntry) (artist title : String) :
    SState → Except PyError SState :=
  fun st =>
    if ctx.fuzzyAvail then
      specResolve lib ctx.cq
        (lib.filter (fun e => ctx.fuzzy artist e.artist &&
                              ctx.substr (normTitle title) e.title)) st
    else .ok st

/-- Spec strategy 5c: fuzzy artist and fuzzy title. -/
def specStrat5c (ctx : Ctx) (lib : List CatalogEntry) (artist title : String) :
    SState → Except PyError SState :=
  fun st =>
    if ctx.fuzzyAvail then
      specResolve lib ctx.cq
        (lib.filter (fun e => ctx.fuzzy artist e.artist &&
                              ctx.fuzzy (normTitle title) e.title)) st
    else .ok st

/-- Spec strategy 6: the optional free-form manual query. -/
def specStrat6 (ctx : Ctx) (lib : List CatalogEntry) :
    SState → Except PyError SState :=
  fun st =>
    if ctx.askUser then
      match user_query lib ctx.cq true st.inputs with
      | .error e => .error e
      | .ok (s, k, ins) => .ok ⟨s, k, ins⟩
    else .ok st

/-- The ordered strategy list of claim C4 / spec §4.2: (1) exact
external-id match when the event carries an identifier, (2) substring
artist+album+title, (3) substring artist+title, (4) the same with the
apostrophe-normalised title, (5a–5c) fuzzy title / artist / both when
fuzzy matching is available (on the title as strategy 4 normalised it),
(6) the optional manual query. -/
def specStrategies (ctx : Ctx) (lib : List CatalogEntry)
    (trackid artist title : String) (album : Option String) :
    List (SState → Except PyError SState) :=
  [ specStrat1 lib trackid,
    specStrat2 ctx lib artist title album,
    specStrat3 ctx lib artist title,
    specStrat4 ctx lib artist title,
    specStrat5a ctx lib artist title,
    specStrat5b ctx lib artist title,
    specStrat5c ctx lib artist title,
    specStrat6 ctx lib ]

/-- The specification's matching cascade for one event: the fixed strategy
order, starting from no match and no skip.  (This definition follows the
words of the spec/claim C4 and is compared against `matchPhase`, which is
embedded from the source.) -/
def specCascadeEvent (ctx : Ctx) (lib : List CatalogEntry)
    (trackid artist title : String) (album : Option String)
    (inputs : List String) : Except PyError SState :=
  runCascade (specStrategies ctx lib trackid artist title album) ⟨none, false, inputs⟩

/-- Observation of a code-side matching state: resolved entry, effective
skip flag, remaining input. -/
def projM (m : MState) : Option CatalogEntry × Bool × List String :=
  (m.song, m.skip.getD false, m.inputs)

/-- Observation of a spec-side cascade state. -/
def projS (s : SState) : Option CatalogEntry × Bool × List String :=
  (s.song, s.skipFlag, s.inputs)

/-! ## Helper lemmas -/

/-- The busy-retry loop around `store()` always ends in exactly one store
and one `total_found` increment, whatever the number of transient
failures. -/
theorem storeLoop_eq (lib : List CatalogEntry) (sid ts found : Nat) :
    ∀ b, storeLoop lib sid ts found b = (storeEntry lib sid ts, found + 1) := by
  intro b
  induction b with
  | zero => rfl
  | succ n ih => simpa [storeLoop] using ih

theorem forall₂_map_self {α : Type} (R : α → α → Prop) (f : α → α) (l : List α)
    (h : ∀ x ∈ l, R x (f x)) : List.Forall₂ R l (l.map f) := by
  induction l with
  | nil => exact List.Forall₂.nil
  | cons a t ih =>
    exact List.Forall₂.cons (h a (List.mem_cons_self a t))
      (ih (fun x hx => h x (List.mem_cons_of_mem a hx)))

/-! ## Claims C1, C7, C9 — the update policy (lines 308–326) -/

/-- Claim C1: for a resolved match, `last_played` is set to the event's
timestamp and persisted if and only if the timestamp strictly exceeds the
entry's current `last_played` (0 when unset); on lesser-or-equal the
library is unchanged and the event counts as not-updated, so `last_played`
is only ever advanced, never regressed.  The hypothesis says that the
resolved item agrees with the library rows carrying its id (it was read
from the database). -/
theorem c1_update_policy (w : World) (song : CatalogEntry) (ts found notUpd : Nat)
    (hid : ∀ e ∈ w.lib, e.id = song.id → e.last_played = song.last_played) :
    (song.last_played.getD 0 < ts →
      updatePhase w song ts found notUpd =
        (⟨storeEntry w.lib song.id ts, w.inputs, w.busy.tail⟩, found + 1, notUpd) ∧
      ∀ e ∈ storeEntry w.lib song.id ts, e.id = song.id → e.last_played = some ts) ∧
    (ts ≤ song.last_played.getD 0 →
      updatePhase w song ts found notUpd = (w, found, notUpd + 1)) ∧
    List.Forall₂ (fun e e2 => e.last_played.getD 0 ≤ e2.last_played.getD 0)
      w.lib (updatePhase w song ts found notUpd).1.lib := by
  refine ⟨?_, ?_, ?_⟩
  · intro h
    constructor
    · simp [updatePhase, h, storeLoop_eq]
    · intro e he hide
      rcases List.mem_map.mp he with ⟨a, _, rfl⟩
      by_cases ha : a.id = song.id
      · simp [ha]
      · simp only [if_neg ha] at hide ⊢
        exact absurd hide ha
  · intro h
    simp [updatePhase, Nat.not_lt.mpr h]
  · by_cases h : song.last_played.getD 0 < ts
    · have : (updatePhase w song ts found notUpd).1.lib = storeEntry w.lib song.id ts := by
        simp [updatePhase, h, storeLoop_eq]
      rw [this]
      refine forall₂_map_self _ _ _ (fun x hx => ?_)
      by_cases hxid : x.id = song.id
      · have := hid x hx hxid
        simp [hxid, this, Nat.le_of_lt h]
      · simp [hxid]
    · have : (updatePhase w song ts found notUpd).1.lib = w.lib := by
        simp [updatePhase, h]
      rw [this]
      exact List.forall₂_same.mpr (fun x _ => Nat.le_refl _)

def songC1 : CatalogEntry := ⟨7, "m", "a", "b", "t", some 5⟩

def wC1 : World := ⟨[songC1], ["i"], [2]⟩

theorem c1_update_policy_witness :
    updatePhase wC1 songC1 9 0 0 =
      (⟨storeEntry wC1.lib songC1.id 9, wC1.inputs, wC1.busy.tail⟩, 1, 0) ∧
    List.Forall₂ (fun e e2 => e.last_played.getD 0 ≤ e2.last_played.getD 0)
      wC1.lib (updatePhase wC1 songC1 9 0 0).1.lib :=
  ⟨((c1_update_policy wC1 songC1 9 0 0 (by decide)).1 (by decide)).1,
   (c1_update_policy wC1 songC1 9 0 0 (by decide)).2.2⟩

/-- Claim C7: after processing a resolved match the entry's `last_played`
equals `max(previous last_played, event.timestamp)`, and processing the
same event a second time (the re-resolved entry then carries exactly that
value) leaves everything unchanged and counts as not-updated — the update
is idempotent. -/
theorem c7_max_idempotent (w : World) (song : CatalogEntry) (ts found notUpd : Nat)
    (w1 : World) (f1 n1 : Nat)
    (hid : ∀ e ∈ w.lib, e.id = song.id → e.last_played = song.last_played)
    (hrun : updatePhase w song ts found notUpd = (w1, f1, n1)) :
    (∀ e ∈ w1.lib, e.id = song.id →
      e.last_played.getD 0 = max (song.last_played.getD 0) ts) ∧
    (∀ song2 : CatalogEntry, song2.last_played.getD 0 = max (song.last_played.getD 0) ts →
      updatePhase w1 song2 ts f1 n1 = (w1, f1, n1 + 1)) := by
  constructor
  · intro e he hide
    by_cases h : song.last_played.getD 0 < ts
    · have hw1 : w1.lib = storeEntry w.lib song.id ts := by
        have := hrun.symm
        simp [updatePhase, h, storeLoop_eq] at this
        rw [this.1]
      rw [hw1] at he
      rcases List.mem_map.mp he with ⟨a, _, rfl⟩
      by_cases ha : a.id = song.id
      · simp [ha, Nat.max_eq_right (Nat.le_of_lt h)]
      · simp only [if_neg ha] at hide ⊢
        exact absurd hide ha
    · have hw1 : w1 = w := by
        have := hrun.symm
        simp [updatePhase, h] at this
        exact this.1
      subst hw1
      rw [hid e he hide, Nat.max_eq_left (Nat.not_lt.mp h)]
  · intro song2 h2
    have hts : ¬ song2.last_played.getD 0 < ts := by
      rw [h2]; omega
    simp [updatePhase, hts]

def songC7 : CatalogEntry := ⟨3, "mm", "ar", "al", "ti", none⟩

def wC7 : World := ⟨[songC7], [], []⟩

theorem c7_max_idempotent_witness :
    (∀ e ∈ (updatePhase wC7 songC7 4 0 0).1.lib, e.id = songC7.id →
      e.last_played.getD 0 = max (songC7.last_played.getD 0) 4) ∧
    (∀ song2 : CatalogEntry, song2.last_played.getD 0 = max (songC7.last_played.getD 0) 4 →
      updatePhase (updatePhase wC7 songC7 4 0 0).1 song2 4
        (updatePhase wC7 songC7 4 0 0).2.1 (updatePhase wC7 songC7 4 0 0).2.2
        = ((updatePhase wC7 songC7 4 0 0).1, (updatePhase wC7 songC7 4 0 0).2.1,
           (updatePhase wC7 songC7 4 0 0).2.2 + 1)) :=
  c7_max_idempotent wC7 songC7 4 0 0 _ _ _ (by decide) rfl

/-- Claim C9: when a resolved match must be updated, any finite number of
transient "database is locked" failures is absorbed by the retry loop —
the final world and counters do not depend on the busy count, the new
value is persisted, and the `found` tally is incremented exactly once. -/
theorem c9_store_retry (lib : List CatalogEntry) (ins : List String) (busyRest : List Nat)
    (song : CatalogEntry) (ts found notUpd : Nat) (b : Nat)
    (h : song.last_played.getD 0 < ts) :
    updatePhase ⟨lib, ins, b :: busyRest⟩ song ts found notUpd
      = (⟨storeEntry lib song.id ts, ins, busyRest⟩, found + 1, notUpd) ∧
    storeLoop lib song.id ts found b = (storeEntry lib song.id ts, found + 1) := by
  constructor
  · simp [updatePhase, h, storeLoop_eq]
  · exact storeLoop_eq lib song.id ts found b

def songC9 : CatalogEntry := ⟨11, "z", "a", "b", "c", some 1⟩

theorem c9_store_retry_witness :
    updatePhase ⟨[songC9], [], 1000 :: []⟩ songC9 2 0 0
      = (⟨storeEntry [songC9] songC9.id 2, [], []⟩, 1, 0) ∧
    storeLoop [songC9] songC9.id 2 0 1000 = (storeEntry [songC9] songC9.id 2, 1) :=
  c9_store_retry [songC9] [] [] songC9 2 0 0 1000 (by decide)

/-! ## Claim C5 — the ambiguity resolver (`select_result`, lines 338–374) -/

def cqNone : String → CatalogEntry → Bool := fun _ _ => false

def rC5a : CatalogEntry := ⟨21, "", "pa", "qa", "ra", none⟩

def rC5b : CatalogEntry := ⟨22, "", "pb", "qb", "rb", none⟩

/-- Claim C5 as stated is false: the input `"e"` is not parseable as an
integer, yet the resolver does not re-prompt on it — it enters the manual
query path.  Concretely, on two candidates with pending input
`["e", "s"]`, re-prompting after the bad input would consume `"s"` as a
skip (second conjunct shows the skip is accepted when offered directly),
but the code instead starts a manual query and exhausts the input
stream. -/
theorem c5_counterexample :
    select_result [] cqNone [rC5a, rC5b] false ["e", "s"] = .error .inputExhausted ∧
    select_result [] cqNone [rC5a, rC5b] false ["s"] = .ok (none, true, []) ∧
    select_result [] cqNone [rC5a, rC5b] false ["e", "s"]
      ≠ select_result [] cqNone [rC5a, rC5b] false ["s"] := by
  refine ⟨rfl, rfl, fun h => ?_⟩
  have h2 : (Except.error PyError.inputExhausted : Except PyError SRout)
      = .ok (none, true, []) := h
  exact Except.noConfusion h2

/-- Claim C5 (amended): zero candidates yield no-match without touching the
input when manual-query mode was not requested; one candidate is returned
without prompting; with N>1 candidates any input parsing to an integer in
[0, N-1] selects that candidate, the skip token `"s"` yields an explicit
skip, and any other input that is not the custom-query token `"e"` —
out of range or unparseable — re-prompts on the remaining input with the
same candidate list. -/
theorem c5_resolver (lib : List CatalogEntry) (cq : String → CatalogEntry → Bool)
    (a b r : CatalogEntry) (l : List CatalogEntry)
    (inputs rest : List String) (ask : Bool) (c : String) (n : Int) :
    (select_result lib cq [] false inputs = .ok (none, false, inputs)) ∧
    (select_result lib cq [r] ask inputs = .ok (some r, false, inputs)) ∧
    (pyInt c = some n → 0 ≤ n → n < ((a :: b :: l).length : Int) →
      ∀ h4 : n.toNat < (a :: b :: l).length,
      select_result lib cq (a :: b :: l) ask (c :: rest)
        = .ok (some ((a :: b :: l).get ⟨n.toNat, h4⟩), false, rest)) ∧
    (select_result lib cq (a :: b :: l) ask ("s" :: rest) = .ok (none, true, rest)) ∧
    (c ≠ "s" → c ≠ "e" →
      (∀ m : Int, pyInt c = some m → m < 0 ∨ ((a :: b :: l).length : Int) ≤ m) →
      select_result lib cq (a :: b :: l) ask (c :: rest)
        = select_result lib cq (a :: b :: l) ask rest) := by
  have hnil : (a :: b :: l) = [] → False := by simp
  have hone : ∀ r2 : CatalogEntry, (a :: b :: l) = [r2] → False := by simp
  refine ⟨?_, ?_, ?_, ?_, ?_⟩
  · rcases inputs with _ | ⟨q, _ | ⟨q2, r2⟩⟩
    · rw [select_result.eq_1]; rfl
    · rw [select_result.eq_2]; rfl
    · rw [select_result.eq_3]; rfl
  · rw [select_result.eq_4]
  · intro h1 h2 h3 h4
    have hcs : c ≠ "s" := by
      intro he; subst he
      rw [show pyInt "s" = none from rfl] at h1
      exact Option.noConfusion h1
    have hce : c ≠ "e" := by
      intro he; subst he
      rw [show pyInt "e" = none from rfl] at h1
      exact Option.noConfusion h1
    rcases rest with _ | ⟨q, r2⟩
    · rw [select_result.eq_6 lib cq (a :: b :: l) ask c hnil hone]
      simp only [if_neg hcs, if_neg hce, h1]
      rw [dif_neg (by omega)]
    · rw [select_result.eq_7 lib cq (a :: b :: l) ask c q r2 hnil hone]
      simp only [if_neg hcs, if_neg hce, h1]
      rw [dif_neg (by omega)]
  · rcases rest with _ | ⟨q, r2⟩
    · rw [select_result.eq_6 lib cq (a :: b :: l) ask "s" hnil hone]
      rw [if_pos rfl]
    · rw [select_result.eq_7 lib cq (a :: b :: l) ask "s" q r2 hnil hone]
      rw [if_pos rfl]
  · intro hs he hm
    rcases rest with _ | ⟨q, r2⟩
    · rw [select_result.eq_6 lib cq (a :: b :: l) ask c hnil hone]
      rw [if_neg hs, if_neg he]
      rcases hpy : pyInt c with _ | m
      · simp only [hpy]
      · simp only [hpy]
        rw [dif_pos (hm m hpy)]
    · rw [select_result.eq_7 lib cq (a :: b :: l) ask c q r2 hnil hone]
      rw [if_neg hs, if_neg he]
      rcases hpy : pyInt c with _ | m
      · simp only [hpy]
      · simp only [hpy]
        rw [dif_pos (hm m hpy)]

theorem c5_resolver_witness :
    (select_result [] cqNone [] false ["w"] = .ok (none, false, ["w"])) ∧
    (select_result [] cqNone [rC5a] true [] = .ok (some rC5a, false, [])) ∧
    (select_result [] cqNone [rC5a, rC5b] false ["1"] = .ok (some rC5b, false, [])) ∧
    (select_result [] cqNone [rC5a, rC5b] false ["s", "x"] = .ok (none, true, ["x"])) ∧
    (select_result [] cqNone [rC5a, rC5b] false ["9"]
      = select_result [] cqNone [rC5a, rC5b] false []) :=
  ⟨(c5_resolver [] cqNone rC5a rC5b rC5a [] ["w"] [] false "w" 0).1,
   (c5_resolver [] cqNone rC5a rC5b rC5a [] [] [] true "w" 0).2.1,
   (c5_resolver [] cqNone rC5a rC5b rC5a [] [] [] false "1" 1).2.2.1
     (by decide) (by decide) (by decide) (by decide),
   (c5_resolver [] cqNone rC5a rC5b rC5a [] [] ["x"] false "s" 0).2.2.2.1,
   (c5_resolver [] cqNone rC5a rC5b rC5a [] [] [] false "9" 0).2.2.2.2
     (by decide) (by decide) (by decide)⟩

/-! ## Pass-through behaviour of the cascade steps -/

theorem step2_some (ctx : Ctx) (lib : List CatalogEntry) (artist : String)
    (album : Option String) (e : CatalogEntry) (k : Option Bool) (t : String)
    (i : List String) :
    step2 ctx lib artist album ⟨some e, k, t, i⟩ = .ok ⟨some e, k, t, i⟩ := by
  cases album <;> rfl

theorem tailC3_term (ctx : Ctx) (lib : List CatalogEntry) (artist : String) (st : MState)
    (h : st.song.isSome ∨ st.skip = some true) :
    tailC3 ctx lib artist st = .ok st := by
  obtain ⟨s, k, t, i⟩ := st
  rcases h with hs | hk
  · obtain ⟨e, rfl⟩ := Option.isSome_iff_exists.mp hs
    rfl
  · simp only at hk
    subst hk
    cases s with
    | some e => rfl
    | none =>
      cases hf : ctx.fuzzyAvail <;> cases ha : ctx.askUser <;>
        simp [tailC3, tailC4, tailC5a, tailC5b, tailC5c, tailC6, step3, step4,
              step5a, step5b, step5c, step6, hf, ha, Except.bind]

/-! ## Claim C8 — a unique external-id match resolves at strategy 1 -/

/-- Claim C8: for an event carrying a present external identifier that
matches exactly one catalog entry, the cascade resolves at strategy 1:
the result is that entry, the skip flag and the interactive input are
untouched, and nothing later in the cascade matters (the statement holds
for every `ctx` — every substring/fuzzy predicate, manual-query
semantics, configuration — and every pending input). -/
theorem c8_id_resolves_first (ctx : Ctx) (lib : List CatalogEntry) (skip0 : Option Bool)
    (inputs : List String) (t : PlayEvent) (e : CatalogEntry)
    (hne : pyStr t.trackid ≠ "")
    (hone : lib.filter (fun x => x.mb_trackid == pyStr t.trackid) = [e]) :
    matchPhase ctx lib skip0 inputs (pyStr t.trackid) (pyStr t.artist) (pyStr t.title)
      (pyAlbum t.album) = .ok ⟨some e, skip0, pyStr t.title, inputs⟩ := by
  unfold matchPhase
  rw [if_neg hne, hone]
  rw [show ([e] : List CatalogEntry).head? = some e from rfl]
  rw [step2_some]
  show tailC3 ctx lib (pyStr t.artist) ⟨some e, skip0, pyStr t.title, inputs⟩ = _
  exact tailC3_term ctx lib (pyStr t.artist) ⟨some e, skip0, pyStr t.title, inputs⟩ (Or.inl rfl)

def entryC8 : CatalogEntry := ⟨31, "mb-one", "ax", "bx", "cx", some 17⟩

def libC8 : List CatalogEntry := [⟨30, "mb-zero", "q", "w", "r", none⟩, entryC8]

def ctxC8 : Ctx := ⟨substrModel, fun _ _ => true, true, true, fun _ _ => true⟩

def evC8 : PlayEvent := ⟨some " mb-one ", some "ax", some "cx", none, 99⟩

theorem c8_id_resolves_first_witness :
    matchPhase ctxC8 libC8 none ["surprise"] (pyStr evC8.trackid) (pyStr evC8.artist)
      (pyStr evC8.title) (pyAlbum evC8.album)
      = .ok ⟨some entryC8, none, pyStr evC8.title, ["surprise"]⟩ :=
  c8_id_resolves_first ctxC8 libC8 none ["surprise"] evC8 entryC8 (by decide) (by decide)

/-! ## Claim C3 — the scope of the `skip` flag -/

def ctxCE : Ctx := ⟨substrModel, fun _ _ => false, false, false, cqNone⟩

def entA1 : CatalogEntry := ⟨1, "", "aa", "xx", "tt", none⟩

def entA2 : CatalogEntry := ⟨2, "", "aa", "xx", "tt", none⟩

def entB3 : CatalogEntry := ⟨3, "", "bb", "yy", "uu", none⟩

def libCE : List CatalogEntry := [entA1, entA2, entB3]

def evA : PlayEvent := ⟨none, some "aa", some "tt", some "xx", 100⟩

def evB : PlayEvent := ⟨none, some "bb", some "uu", none, 200⟩

/-- Claim C3 as stated is false: the `skip` flag is function-scoped, not
per-event.  The same two-event page is processed twice, differing only in
how the operator resolves the first event's two-candidate ambiguity
(choice `"0"` versus skip `"s"`).  The second event (no identifier, no
album, a unique artist/title match) resolves and is updated in the first
run but is silently skipped — counted unknown, never matched — in the
second, because the first event's skip leaks into its guard. -/
theorem c3_counterexample :
    process_tracks ctxCE ⟨libCE, ["0"], []⟩ [evA, evB]
      = .ok (⟨[⟨1, "", "aa", "xx", "tt", some 100⟩, entA2,
               ⟨3, "", "bb", "yy", "uu", some 200⟩], [], []⟩, 2, 0, 0) ∧
    process_tracks ctxCE ⟨libCE, ["s"], []⟩ [evA, evB]
      = .ok (⟨libCE, [], []⟩, 0, 0, 2) :=
  ⟨rfl, rfl⟩

/-- Claim C3 (amended): the `skip` flag of `process_tracks` is shared by all
events of a page.  (a) For an event reached while the flag has never been
assigned — in particular the first event of a page — whose external-id
strategy yields nothing and whose album is absent, evaluating the guard of
the artist/title strategy reads the unassigned flag and raises an
unbound-local error that aborts the page.  (b) For an event reached while
the flag holds `true` (a leftover skip of an earlier event), every
strategy after the external-id lookup is suppressed even though this
event's own resolvers never ran. -/
theorem c3_skip_function_scoped (ctx : Ctx) (lib : List CatalogEntry)
    (inputs : List String) (tid artist title : String)
    (hmiss : tid = "" ∨ lib.filter (fun e => e.mb_trackid == tid) = []) :
    matchPhase ctx lib none inputs tid artist title none = .error .unboundLocal ∧
    matchPhase ctx lib (some true) inputs tid artist title none
      = .ok ⟨none, some true, title, inputs⟩ := by
  have hsong : (if tid = "" then none
      else (lib.filter (fun e => e.mb_trackid == tid)).head?) = (none : Option CatalogEntry) := by
    rcases hmiss with h | h
    · rw [if_pos h]
    · by_cases htid : tid = ""
      · rw [if_pos htid]
      · rw [if_neg htid, h]; rfl
  constructor
  · unfold matchPhase
    rw [hsong]
    rfl
  · unfold matchPhase
    rw [hsong]
    show tailC3 ctx lib artist ⟨none, some true, title, inputs⟩ = _
    exact tailC3_term ctx lib artist ⟨none, some true, title, inputs⟩ (Or.inr rfl)

theorem c3_skip_function_scoped_witness :
    matchPhase ctxCE libCE none [] "" "bb" "uu" none = .error .unboundLocal ∧
    matchPhase ctxCE libCE (some true) [] "" "bb" "uu" none
      = .ok ⟨none, some true, "uu", []⟩ :=
  c3_skip_function_scoped ctxCE libCE [] "" "bb" "uu" (Or.inl rfl)

/-! ## Driver lemmas -/

/-- As long as the retry loop is entered with at most `retryLimit` attempts
left — as the driver always does — the current retry index stays strictly
below `retryLimit`, so the `retry == retry_limit` conjunct of the
"no data" check can never hold and the `ui.UserError` is unreachable. -/
theorem attemptLoop_ne_noData (ctx : Ctx) (fetch : Fetch) (retryLimit : Nat) :
    ∀ k st, k ≤ retryLimit →
      attemptLoop ctx fetch retryLimit k st ≠ .error .noData := by
  intro k
  induction k with
  | zero =>
    intro st _ h
    exact Except.noConfusion h
  | succ k ih =>
    intro st hk h
    have hr : retryLimit - (k + 1) ≠ retryLimit := by omega
    rw [attemptLoop] at h
    split at h
    · split at h
      · rename_i hc
        exact hr hc.2
      · exact ih st (by omega) h
    · split at h
      · rename_i hc
        exact hr hc.2
      · split at h
        · exact ih _ (by omega) h
        · split at h
          · exact RunErr.noConfusion (Except.error.inj h)
          · exact Except.noConfusion h

/-- If every attempt at the current page fails with a service error, the
retry loop leaves the state untouched (the page is abandoned), provided at
least one page is known to exist. -/
theorem attemptLoop_allFail (ctx : Ctx) (fetch : Fetch) (retryLimit : Nat) (st : DrState)
    (hpt : 1 ≤ st.pageTotal)
    (hfail : ∀ r, r < retryLimit → fetch (st.pageCurrent + 1) r = .error ()) :
    ∀ k, k ≤ retryLimit → attemptLoop ctx fetch retryLimit k st = .ok st := by
  intro k
  induction k with
  | zero => intro _; rfl
  | succ k ih =>
    intro hk
    rw [attemptLoop, hfail (retryLimit - (k + 1)) (by omega)]
    dsimp only
    rw [if_neg (by omega : ¬(st.pageTotal < 1 ∧ retryLimit - (k + 1) = retryLimit))]
    exact ih (by omega)

/-- The retry loop only ever adds to the aggregate counters. -/
theorem attemptLoop_mono (ctx : Ctx) (fetch : Fetch) (retryLimit : Nat) :
    ∀ k st st2, attemptLoop ctx fetch retryLimit k st = .ok st2 →
      st.found ≤ st2.found ∧ st.notUpd ≤ st2.notUpd ∧ st.unknown ≤ st2.unknown := by
  intro k
  induction k with
  | zero =>
    intro st st2 h
    have h2 := Except.ok.inj h
    subst h2
    exact ⟨Nat.le_refl _, Nat.le_refl _, Nat.le_refl _⟩
  | succ k ih =>
    intro st st2 h
    rw [attemptLoop] at h
    split at h
    · split at h
      · exact Except.noConfusion h
      · have h3 := ih _ st2 h
        exact h3
    · split at h
      · exact Except.noConfusion h
      · split at h
        · have h3 := ih _ st2 h
          exact h3
        · split at h
          · exact Except.noConfusion h
          · have h2 := Except.ok.inj h
            subst h2
            refine ⟨?_, ?_, ?_⟩ <;> simp

/-- The page loop only ever adds to the aggregate counters. -/
theorem driverLoop_mono (ctx : Ctx) (fetch : Fetch) (retryLimit : Nat) :
    ∀ fuel st st2, driverLoop ctx fetch retryLimit fuel st = .ok st2 →
      st.found ≤ st2.found ∧ st.notUpd ≤ st2.notUpd ∧ st.unknown ≤ st2.unknown := by
  intro fuel
  induction fuel with
  | zero =>
    intro st st2 h
    rw [driverLoop] at h
    split at h
    · exact Except.noConfusion h
    · have h2 := Except.ok.inj h
      subst h2
      exact ⟨Nat.le_refl _, Nat.le_refl _, Nat.le_refl _⟩
  | succ fuel ih =>
    intro st st2 h
    rw [driverLoop] at h
    split at h
    · rcases ha : attemptLoop ctx fetch retryLimit retryLimit st with e | st3 <;>
        rw [ha] at h
      · exact Except.noConfusion h
      · have h1 := attemptLoop_mono ctx fetch retryLimit retryLimit st st3 ha
        have h2 := ih _ st2 h
        simp only at h2
        exact ⟨Nat.le_trans h1.1 h2.1, Nat.le_trans h1.2.1 h2.2.1,
               Nat.le_trans h1.2.2 h2.2.2⟩
    · have h2 := Except.ok.inj h
      subst h2
      exact ⟨Nat.le_refl _, Nat.le_refl _, Nat.le_refl _⟩

/-- The page loop never raises the "Last.fm reported no data" error. -/
theorem driverLoop_ne_noData (ctx : Ctx) (fetch : Fetch) (retryLimit : Nat) :
    ∀ fuel st, driverLoop ctx fetch retryLimit fuel st ≠ .error .noData := by
  intro fuel
  induction fuel with
  | zero =>
    intro st h
    rw [driverLoop] at h
    split at h
    · exact RunErr.noConfusion (Except.error.inj h)
    · exact Except.noConfusion h
  | succ fuel ih =>
    intro st h
    rw [driverLoop] at h
    split at h
    · rcases ha : attemptLoop ctx fetch retryLimit retryLimit st with e | st3 <;>
        rw [ha] at h
      · have := attemptLoop_ne_noData ctx fetch retryLimit retryLimit st (Nat.le_refl _)
        rw [ha] at this
        exact this (by rw [← Except.error.inj h])
      · exact ih _ h
    · exact Except.noConfusion h

/-! ## Claim C2 — zero total pages is (not) fatal -/

def fetchEmpty : Fetch := fun _ _ => .ok ([], 0)

def cfgAlice : BeetsConfig := ⟨"alice", ⟨50, 3, true⟩, 3⟩

/-- Claim C2 is refuted by the code: when the very first successful response
reports 0 total pages, no fatal error is raised.  The guard
`if page_total < 1 and retry == retry_limit` can never fire because
`retry` ranges over `range(0, retry_limit)`, so `retry == retry_limit` is
unsatisfiable: the empty page is retried like a transient failure and the
run then completes normally with zero counters (first conjunct); more
generally no run of the driver ever ends in the no-data error (second
conjunct). -/
theorem c2_zero_pages_not_fatal :
    import_lastfm_last_played ctxCE fetchEmpty cfgAlice 5 ⟨[], [], []⟩ = .ok (0, 0, 0) ∧
    ∀ (ctx : Ctx) (fetch : Fetch) (rl fuel : Nat) (st : DrState),
      driverLoop ctx fetch rl fuel st ≠ .error .noData := by
  constructor
  · rfl
  · intro ctx fetch rl fuel st
    exact driverLoop_ne_noData ctx fetch rl fuel st

/-! ## Claim C6 — abandoning a page keeps earlier results -/

/-- Claim C6: if every attempt at the current page fails, the run proceeds
to the next page with the state (in particular all counters) intact, and
whatever the rest of the run does, the counters it ends with are at least
the counters accumulated so far — earlier pages' results are never
lost. -/
theorem c6_page_abandoned (ctx : Ctx) (fetch : Fetch) (rl fuel : Nat) (st : DrState)
    (hpage : st.pageCurrent < st.pageTotal)
    (hfail : ∀ r, r < rl → fetch (st.pageCurrent + 1) r = .error ()) :
    driverLoop ctx fetch rl (fuel + 1) st
      = driverLoop ctx fetch rl fuel { st with pageCurrent := st.pageCurrent + 1 } ∧
    ∀ st2, driverLoop ctx fetch rl (fuel + 1) st = .ok st2 →
      st.found ≤ st2.found ∧ st.notUpd ≤ st2.notUpd ∧ st.unknown ≤ st2.unknown := by
  constructor
  · rw [driverLoop, if_pos hpage,
        attemptLoop_allFail ctx fetch rl st (by omega) hfail rl (Nat.le_refl _)]
  · intro st2 h
    exact driverLoop_mono ctx fetch rl (fuel + 1) st st2 h

def fetchAlwaysFail : Fetch := fun _ _ => .error ()

def drStC6 : DrState := ⟨⟨[], [], []⟩, 1, 4, 5, 6, 7⟩

theorem c6_page_abandoned_witness :
    driverLoop ctxCE fetchAlwaysFail 3 (2 + 1) drStC6
      = driverLoop ctxCE fetchAlwaysFail 3 2 { drStC6 with pageCurrent := drStC6.pageCurrent + 1 } ∧
    ∀ st2, driverLoop ctxCE fetchAlwaysFail 3 (2 + 1) drStC6 = .ok st2 →
      drStC6.found ≤ st2.found ∧ drStC6.notUpd ≤ st2.notUpd ∧ drStC6.unknown ≤ st2.unknown :=
  c6_page_abandoned ctxCE fetchAlwaysFail 3 2 drStC6 (by decide) (fun _ _ => rfl)

/-! ## Claim C10 — which retry limit the driver actually uses -/

def entryC10 : CatalogEntry := ⟨41, "mbX", "ga", "gb", "gc", none⟩

def evC10 : PlayEvent := ⟨some "mbX", some "ga", some "gc", none, 500⟩

/-- Fails the first four attempts at any page, succeeds at retry index 4
with one event and one total page. -/
def fetchC10 : Fetch := fun _ r => if r = 4 then .ok ([evC10], 1) else .error ()

def cfgC10 : BeetsConfig := ⟨"u", ⟨50, 5, false⟩, 2⟩

def wC10 : World := ⟨[entryC10], [], []⟩

def drInitC10 : DrState := ⟨wC10, 0, 1, 0, 0, 0⟩

/-- Claim C10 is refuted by the code: the retry bound the driver uses is
`config['lastimport']['retry_limit']` — the option of the *other*
(lastimport) plugin — not the `retry_limit` option this plugin registers
for itself (default 3, alongside page size and the manual-query toggle).
With the plugin's own option set to 5 and the foreign option set to 2, a
page whose fetch succeeds on the fifth attempt is processed when the bound
is 5 but abandoned by the actual run, which retries only twice. -/
theorem c10_wrong_config_namespace :
    retryLimitUsed cfgC10 = cfgC10.lastimport_retry_limit ∧
    cfgC10.lastimport_retry_limit = 2 ∧
    cfgC10.lastimportlastplayed.retry_limit = 5 ∧
    registeredDefaults.retry_limit = 3 ∧
    import_lastfm_last_played ctxCE fetchC10 cfgC10 5 wC10 = .ok (0, 0, 0) ∧
    (driverLoop ctxCE fetchC10 cfgC10.lastimportlastplayed.retry_limit 5 drInitC10).map
        (fun s => (s.found, s.notUpd, s.unknown)) = .ok (1, 0, 0) :=
  ⟨rfl, rfl, rfl, rfl, rfl, rfl⟩

/-! ## Claim C4 — the cascade order (code vs. spec) -/

theorem runCascade_cons (f : SState → Except PyError SState)
    (rest : List (SState → Except PyError SState)) (st : SState) :
    runCascade (f :: rest) st =
      if st.song.isSome ∨ st.skipFlag then .ok st
      else
        match f st with
        | .error e => .error e
        | .ok st2 => runCascade rest st2 := rfl

/-- A cascade state that already holds a match or a skip passes through the
remaining spec strategies unchanged. -/
theorem runCascade_term (l : List (SState → Except PyError SState)) (st : SState)
    (h : st.song.isSome ∨ st.skipFlag) : runCascade l st = .ok st := by
  cases l with
  | nil => rfl
  | cons f rest => rw [runCascade_cons, if_pos h]

theorem tailC4_term (ctx : Ctx) (lib : List CatalogEntry) (artist : String) (st : MState)
    (h : st.song.isSome ∨ st.skip = some true) :
    tailC4 ctx lib artist st = .ok st := by
  obtain ⟨s, k, t, i⟩ := st
  rcases h with hs | hk
  · obtain ⟨e, rfl⟩ := Option.isSome_iff_exists.mp hs
    rfl
  · simp only at hk
    subst hk
    cases s with
    | some e => rfl
    | none =>
      cases hf : ctx.fuzzyAvail <;> cases ha : ctx.askUser <;>
        simp [tailC4, tailC5a, tailC5b, tailC5c, tailC6, step4,
              step5a, step5b, step5c, step6, hf, ha, Except.bind]

theorem tailC5a_term (ctx : Ctx) (lib : List CatalogEntry) (artist : String) (st : MState)
    (h : st.song.isSome ∨ st.skip = some true) :
    tailC5a ctx lib artist st = .ok st := by
  obtain ⟨s, k, t, i⟩ := st
  rcases h with hs | hk
  · obtain ⟨e, rfl⟩ := Option.isSome_iff_exists.mp hs
    rfl
  · simp only at hk
    subst hk
    cases s with
    | some e => rfl
    | none =>
      cases hf : ctx.fuzzyAvail <;> cases ha : ctx.askUser <;>
        simp [tailC5a, tailC5b, tailC5c, tailC6,
              step5a, step5b, step5c, step6, hf, ha, Except.bind]

theorem tailC5b_term (ctx : Ctx) (lib : List CatalogEntry) (artist : String) (st : MState)
    (h : st.song.isSome ∨ st.skip = some true) :
    tailC5b ctx lib artist st = .ok st := by
  obtain ⟨s, k, t, i⟩ := st
  rcases h with hs | hk
  · obtain ⟨e, rfl⟩ := Option.isSome_iff_exists.mp hs
    rfl
  · simp only at hk
    subst hk
    cases s with
    | some e => rfl
    | none =>
      cases hf : ctx.fuzzyAvail <;> cases ha : ctx.askUser <;>
        simp [tailC5b, tailC5c, tailC6, step5b, step5c, step6, hf, ha, Except.bind]

theorem tailC5c_term (ctx : Ctx) (lib : List CatalogEntry) (artist : String) (st : MState)
    (h : st.song.isSome ∨ st.skip = some true) :
    tailC5c ctx lib artist st = .ok st := by
  obtain ⟨s, k, t, i⟩ := st
  rcases h with hs | hk
  · obtain ⟨e, rfl⟩ := Option.isSome_iff_exists.mp hs
    rfl
  · simp only at hk
    subst hk
    cases s with
    | some e => rfl
    | none =>
      cases hf : ctx.fuzzyAvail <;> cases ha : ctx.askUser <;>
        simp [tailC5c, tailC6, step5c, step6, hf, ha, Except.bind]

theorem tailC6_term (ctx : Ctx) (lib : List CatalogEntry) (st : MState)
    (h : st.song.isSome ∨ st.skip = some true) :
    tailC6 ctx lib st = .ok st := by
  obtain ⟨s, k, t, i⟩ := st
  rcases h with hs | hk
  · obtain ⟨e, rfl⟩ := Option.isSome_iff_exists.mp hs
    rfl
  · simp only at hk
    subst hk
    cases s with
    | some e => rfl
    | none =>
      cases ha : ctx.askUser <;> simp [tailC6, step6, ha]

/-- Simulation, stage 6: with the skip flag assigned, the code's strategy-6
step observes exactly the spec's strategy-6 cascade tail. -/
theorem sim6 (ctx : Ctx) (lib : List CatalogEntry) (t : String)
    (so : Option CatalogEntry) (sf : Bool) (ins : List String) :
    (tailC6 ctx lib ⟨so, some sf, t, ins⟩).map projM
      = (runCascade [specStrat6 ctx lib] ⟨so, sf, ins⟩).map projS := by
  cases so with
  | some e =>
    rw [tailC6_term ctx lib ⟨some e, some sf, t, ins⟩ (Or.inl rfl),
        runCascade_term _ ⟨some e, sf, ins⟩ (Or.inl rfl)]
    rfl
  | none =>
    cases sf with
    | true =>
      rw [tailC6_term ctx lib ⟨none, some true, t, ins⟩ (Or.inr rfl),
          runCascade_term _ ⟨none, true, ins⟩ (Or.inr rfl)]
      rfl
    | false =>
      rw [runCascade_cons, if_neg (by simp)]
      simp only [tailC6, step6, specStrat6]
      cases ha : ctx.askUser with
      | false => rfl
      | true =>
        simp only [ha, if_pos]
        rcases hu : user_query lib ctx.cq true ins with e | ⟨s, k, i2⟩ <;>
          simp [hu, runCascade, projM, projS, Except.map]

/-- Simulation, stage 5c. -/
theorem sim5c (ctx : Ctx) (lib : List CatalogEntry) (artist title0 : String)
    (so : Option CatalogEntry) (sf : Bool) (ins : List String) :
    (tailC5c ctx lib artist ⟨so, some sf, normTitle title0, ins⟩).map projM
      = (runCascade [specStrat5c ctx lib artist title0, specStrat6 ctx lib]
          ⟨so, sf, ins⟩).map projS := by
  cases so with
  | some e =>
    rw [tailC5c_term ctx lib artist ⟨some e, some sf, normTitle title0, ins⟩ (Or.inl rfl),
        runCascade_term _ ⟨some e, sf, ins⟩ (Or.inl rfl)]
    rfl
  | none =>
    cases sf with
    | true =>
      rw [tailC5c_term ctx lib artist ⟨none, some true, normTitle title0, ins⟩ (Or.inr rfl),
          runCascade_term _ ⟨none, true, ins⟩ (Or.inr rfl)]
      rfl
    | false =>
      rw [runCascade_cons, if_neg (by simp)]
      simp only [tailC5c, step5c, specStrat5c, specResolve]
      cases hf : ctx.fuzzyAvail with
      | false =>
        simp only [hf, Bool.false_eq_true, if_false, Except.bind]
        exact sim6 ctx lib (normTitle title0) none false ins
      | true =>
        simp only [hf, if_true]
        rcases hsel : select_result lib ctx.cq
            (lib.filter (fun e => ctx.fuzzy artist e.artist &&
              ctx.fuzzy (normTitle title0) e.title)) false ins with e | ⟨s, k, i2⟩
        · simp [hsel, Except.bind, Except.map]
        · simp only [hsel, Except.bind]
          exact sim6 ctx lib (normTitle title0) s k i2

/-- Simulation, stage 5b. -/
theorem sim5b (ctx : Ctx) (lib : List CatalogEntry) (artist title0 : String)
    (so : Option CatalogEntry) (sf : Bool) (ins : List String) :
    (tailC5b ctx lib artist ⟨so, some sf, normTitle title0, ins⟩).map projM
      = (runCascade [specStrat5b ctx lib artist title0, specStrat5c ctx lib artist title0,
          specStrat6 ctx lib] ⟨so, sf, ins⟩).map projS := by
  cases so with
  | some e =>
    rw [tailC5b_term ctx lib artist ⟨some e, some sf, normTitle title0, ins⟩ (Or.inl rfl),
        runCascade_term _ ⟨some e, sf, ins⟩ (Or.inl rfl)]
    rfl
  | none =>
    cases sf with
    | true =>
      rw [tailC5b_term ctx lib artist ⟨none, some true, normTitle title0, ins⟩ (Or.inr rfl),
          runCascade_term _ ⟨none, true, ins⟩ (Or.inr rfl)]
      rfl
    | false =>
      rw [runCascade_cons, if_neg (by simp)]
      simp only [tailC5b, step5b, specStrat5b, specResolve]
      cases hf : ctx.fuzzyAvail with
      | false =>
        simp only [hf, Bool.false_eq_true, if_false, Except.bind]
        exact sim5c ctx lib artist title0 none false ins
      | true =>
        simp only [hf, if_true]
        rcases hsel : select_result lib ctx.cq
            (lib.filter (fun e => ctx.fuzzy artist e.artist &&
              ctx.substr (normTitle title0) e.title)) false ins with e | ⟨s, k, i2⟩
        · simp [hsel, Except.bind, Except.map]
        · simp only [hsel, Except.bind]
          exact sim5c ctx lib artist title0 s k i2

/-- Simulation, stage 5a. -/
theorem sim5a (ctx : Ctx) (lib : List CatalogEntry) (artist title0 : String)
    (so : Option CatalogEntry) (sf : Bool) (ins : List String) :
    (tailC5a ctx lib artist ⟨so, some sf, normTitle title0, ins⟩).map projM
      = (runCascade [specStrat5a ctx lib artist title0, specStrat5b ctx lib artist title0,
          specStrat5c ctx lib artist title0, specStrat6 ctx lib] ⟨so, sf, ins⟩).map projS := by
  cases so with
  | some e =>
    rw [tailC5a_term ctx lib artist ⟨some e, some sf, normTitle title0, ins⟩ (Or.inl rfl),
        runCascade_term _ ⟨some e, sf, ins⟩ (Or.inl rfl)]
    rfl
  | none =>
    cases sf with
    | true =>
      rw [tailC5a_term ctx lib artist ⟨none, some true, normTitle title0, ins⟩ (Or.inr rfl),
          runCascade_term _ ⟨none, true, ins⟩ (Or.inr rfl)]
      rfl
    | false =>
      rw [runCascade_cons, if_neg (by simp)]
      simp only [tailC5a, step5a, specStrat5a, specResolve]
      cases hf : ctx.fuzzyAvail with
      | false =>
        simp only [hf, Bool.false_eq_true, if_false, Except.bind]
        exact sim5b ctx lib artist title0 none false ins
      | true =>
        simp only [hf, if_true]
        rcases hsel : select_result lib ctx.cq
            (lib.filter (fun e => ctx.substr artist e.artist &&
              ctx.fuzzy (normTitle title0) e.title)) false ins with e | ⟨s, k, i2⟩
        · simp [hsel, Except.bind, Except.map]
        · simp only [hsel, Except.bind]
          exact sim5b ctx lib artist title0 s k i2

/-- Simulation, stage 4 (the title is normalised here). -/
theorem sim4 (ctx : Ctx) (lib : List CatalogEntry) (artist title0 : String)
    (so : Option CatalogEntry) (sf : Bool) (ins : List String) :
    (tailC4 ctx lib artist ⟨so, some sf, title0, ins⟩).map projM
      = (runCascade [specStrat4 ctx lib artist title0, specStrat5a ctx lib artist title0,
          specStrat5b ctx lib artist title0, specStrat5c ctx lib artist title0,
          specStrat6 ctx lib] ⟨so, sf, ins⟩).map projS := by
  cases so with
  | some e =>
    rw [tailC4_term ctx lib artist ⟨some e, some sf, title0, ins⟩ (Or.inl rfl),
        runCascade_term _ ⟨some e, sf, ins⟩ (Or.inl rfl)]
    rfl
  | none =>
    cases sf with
    | true =>
      rw [tailC4_term ctx lib artist ⟨none, some true, title0, ins⟩ (Or.inr rfl),
          runCascade_term _ ⟨none, true, ins⟩ (Or.inr rfl)]
      rfl
    | false =>
      rw [runCascade_cons, if_neg (by simp)]
      simp only [tailC4, step4, specStrat4, specResolve]
      rcases hsel : select_result lib ctx.cq
          (lib.filter (fun e => ctx.substr artist e.artist &&
            ctx.substr (normTitle title0) e.title)) false ins with e | ⟨s, k, i2⟩
      · simp [hsel, Except.bind, Except.map]
      · simp only [hsel, Except.bind]
        exact sim5a ctx lib artist title0 s k i2

/-- Simulation, stage 3. -/
theorem sim3 (ctx : Ctx) (lib : List CatalogEntry) (artist title0 : String)
    (so : Option CatalogEntry) (sf : Bool) (ins : List String) :
    (tailC3 ctx lib artist ⟨so, some sf, title0, ins⟩).map projM
      = (runCascade [specStrat3 ctx lib artist title0, specStrat4 ctx lib artist title0,
          specStrat5a ctx lib artist title0, specStrat5b ctx lib artist title0,
          specStrat5c ctx lib artist title0, specStrat6 ctx lib] ⟨so, sf, ins⟩).map projS := by
  cases so with
  | some e =>
    rw [tailC3_term ctx lib artist ⟨some e, some sf, title0, ins⟩ (Or.inl rfl),
        runCascade_term _ ⟨some e, sf, ins⟩ (Or.inl rfl)]
    rfl
  | none =>
    cases sf with
    | true =>
      rw [tailC3_term ctx lib artist ⟨none, some true, title0, ins⟩ (Or.inr rfl),
          runCascade_term _ ⟨none, true, ins⟩ (Or.inr rfl)]
      rfl
    | false =>
      rw [runCascade_cons, if_neg (by simp)]
      simp only [tailC3, step3, specStrat3, specResolve]
      rcases hsel : select_result lib ctx.cq
          (lib.filter (fun e => ctx.substr artist e.artist &&
            ctx.substr title0 e.title)) false ins with e | ⟨s, k, i2⟩
      · simp [hsel, Except.bind, Except.map]
      · simp only [hsel, Except.bind]
        exact sim4 ctx lib artist title0 s k i2

/-- Simulation, stage 2 (entered with the skip flag false, as every
event whose processing follows the claim is). -/
theorem sim2 (ctx : Ctx) (lib : List CatalogEntry) (artist title0 : String)
    (album : Option String) (so : Option CatalogEntry) (ins : List String) :
    ((step2 ctx lib artist album ⟨so, some false, title0, ins⟩).bind
        (tailC3 ctx lib artist)).map projM
      = (runCascade [specStrat2 ctx lib artist title0 album,
          specStrat3 ctx lib artist title0, specStrat4 ctx lib artist title0,
          specStrat5a ctx lib artist title0, specStrat5b ctx lib artist title0,
          specStrat5c ctx lib artist title0, specStrat6 ctx lib] ⟨so, false, ins⟩).map projS := by
  cases so with
  | some e =>
    rw [step2_some]
    simp only [Except.bind]
    rw [tailC3_term ctx lib artist ⟨some e, some false, title0, ins⟩ (Or.inl rfl)]
    rw [runCascade_term _ ⟨some e, false, ins⟩ (Or.inl rfl)]
    rfl
  | none =>
    rw [runCascade_cons]
    rw [if_neg (show ¬((⟨none, false, ins⟩ : SState).song.isSome = true ∨
        (⟨none, false, ins⟩ : SState).skipFlag = true) by simp)]
    cases album with
    | none =>
      simp only [step2, specStrat2, Except.bind]
      exact sim3 ctx lib artist title0 none false ins
    | some al =>
      simp only [step2, specStrat2, specResolve]
      rcases hsel : select_result lib ctx.cq
          (lib.filter (fun e => ctx.substr artist e.artist && ctx.substr al e.album &&
            ctx.substr title0 e.title)) false ins with e | ⟨s, k, i2⟩
      · simp [hsel, Except.bind, Except.map]
      · simp only [hsel, Except.bind]
        exact sim3 ctx lib artist title0 s k i2

/-- Claim C4 (amended): for an event processed while the function-scoped
skip flag holds `false` — as is the case per-event whenever no earlier
skip leaks in — the matching part of `process_tracks` observes exactly the
specification's fixed-order cascade: strategies (1)–(6) in order, each
running only if all earlier ones produced no match and no skip, a
user-skip terminating the cascade. -/
theorem c4_cascade_order (ctx : Ctx) (lib : List CatalogEntry) (inputs : List String)
    (tid artist title0 : String) (album : Option String) :
    (matchPhase ctx lib (some false) inputs tid artist title0 album).map projM
      = (specCascadeEvent ctx lib tid artist title0 album inputs).map projS := by
  unfold matchPhase specCascadeEvent specStrategies
  rw [runCascade_cons]
  rw [if_neg (show ¬((⟨none, false, inputs⟩ : SState).song.isSome = true ∨
      (⟨none, false, inputs⟩ : SState).skipFlag = true) by simp)]
  simp only [specStrat1]
  exact sim2 ctx lib artist title0 album
    (if tid = "" then none else (lib.filter (fun e => e.mb_trackid == tid)).head?) inputs

def entC4a : CatalogEntry := ⟨4, "", "cc", "zz", "vv", none⟩

def entC4b : CatalogEntry := ⟨5, "", "cc", "zz", "vv", none⟩

def entC4c : CatalogEntry := ⟨6, "", "dd", "ww", "rr", none⟩

def libC4 : List CatalogEntry := [entC4a, entC4b, entC4c]

def evC4x : PlayEvent := ⟨none, some "cc", some "vv", some "zz", 300⟩

def evC4y : PlayEvent := ⟨none, some "dd", some "rr", none, 400⟩

/-- Claim C4 as stated is false: in this page run the operator skips the
first event's two-candidate ambiguity, and the second event (no
identifier, no album) ends unmatched — both events land in the unknown
tally and nothing is updated — even though the claimed fixed-order cascade
applied to the second event's own fields (second conjunct) resolves it at
strategy 3 without consuming any input.  Strategies 3–6 were never
attempted for the second event: the leaked skip of the first event
suppressed them. -/
theorem c4_counterexample :
    process_tracks ctxCE ⟨libC4, ["s"], []⟩ [evC4x, evC4y]
      = .ok (⟨libC4, [], []⟩, 0, 0, 2) ∧
    specCascadeEvent ctxCE libC4 "" "dd" "rr" none []
      = .ok ⟨some entC4c, false, []⟩ :=
  ⟨rfl, rfl⟩

end LastImport
